import Mathlib

/-!
Verification development for the diss-data repository.

The embedding covers:
* `src/research_labelling.py` — `ResearchBasedLabeler`: thresholds, framework
  mappings, `label_case_inefficiencies`, `_calculate_optimization_potential`,
  `_get_recommendation`, `_get_expected_improvement` and the `severity_level`
  bucketing inside `label_dataset`;
* `src/data_exploration.py` — the rejection-feature part of
  `extract_training_features`;
* `src/aws_bedrock_deployment/deployment_scripts/validate_system.py` —
  `SystemValidator`: infrastructure / data / framework-knowledge / research
  compliance category scores, `calculate_overall_score`, and the exit-code
  tiers of `main`.

Python floats are modelled as rationals (ℚ); every constant in the source is
exactly representable.  Optional float fields are `Option ℚ`.  Python dict
rows are Lean structures; purely descriptive string fields of a finding
(`expected_range`, `research_finding`, ...) carry no logic and are not part of
the record.  `try`/`except` around an external query is modelled by the query
returning `Except String α` and the handler mapping `Except.error` to the
recorded-absent value.
-/

/-! ## ResearchBasedLabeler.__init__ : thresholds and framework mappings -/

/-- `self.thresholds['domestic_normal_duration']` (research: 8-11 days normal). -/
def domestic_normal_duration : ℚ := 11

/-- `self.thresholds['domestic_excessive_duration']`. -/
def domestic_excessive_duration : ℚ := 20

/-- `self.thresholds['international_normal_duration']` (research: 66-86 days). -/
def international_normal_duration : ℚ := 86

/-- `self.thresholds['international_excessive_duration']`. -/
def international_excessive_duration : ℚ := 150

/-- `self.thresholds['supervisor_approval_bottleneck']`. -/
def supervisor_approval_bottleneck_threshold : ℚ := 30

/-- `self.thresholds['director_approval_bottleneck']`. -/
def director_approval_bottleneck_threshold : ℚ := 45

/-- `self.thresholds['excessive_rejections']`. -/
def excessive_rejections_threshold : ℕ := 2

/-- `self.thresholds['budget_variance_threshold']`. -/
def budget_variance_threshold : ℚ := 3/10

/-- `self.thresholds['late_submission_days']`. -/
def late_submission_days_threshold : ℚ := 60

/-- The `self.thresholds` dictionary as a lookup table (key to value). -/
def thresholds (k : String) : Option ℚ :=
  if k = "domestic_normal_duration" then some domestic_normal_duration
  else if k = "domestic_excessive_duration" then some domestic_excessive_duration
  else if k = "international_normal_duration" then some international_normal_duration
  else if k = "international_excessive_duration" then some international_excessive_duration
  else if k = "supervisor_approval_bottleneck" then some supervisor_approval_bottleneck_threshold
  else if k = "director_approval_bottleneck" then some director_approval_bottleneck_threshold
  else if k = "excessive_rejections" then some (excessive_rejections_threshold : ℚ)
  else if k = "budget_variance_threshold" then some budget_variance_threshold
  else if k = "late_submission_days" then some late_submission_days_threshold
  else none

/-- One entry of `self.framework_mappings`. -/
structure FrameworkViolation where
  lean_waste : String
  agile_principle : String
  optimization : String
deriving DecidableEq

/-- `self.framework_mappings['supervisor_approval_bottleneck']`. -/
def fm_supervisor_approval_bottleneck : FrameworkViolation :=
  { lean_waste := "waiting"
    agile_principle := "working_software_over_documentation"
    optimization := "increase_supervisors_or_delegation" }

/-- `self.framework_mappings['director_approval_bottleneck']`. -/
def fm_director_approval_bottleneck : FrameworkViolation :=
  { lean_waste := "waiting"
    agile_principle := "responding_to_change"
    optimization := "implement_escalation_rules" }

/-- `self.framework_mappings['excessive_rejections']`. -/
def fm_excessive_rejections : FrameworkViolation :=
  { lean_waste := "defects"
    agile_principle := "working_software_over_documentation"
    optimization := "implement_pre_validation_checks" }

/-- `self.framework_mappings['excessive_duration']`. -/
def fm_excessive_duration : FrameworkViolation :=
  { lean_waste := "waiting"
    agile_principle := "deliver_working_software_frequently"
    optimization := "streamline_approval_process" }

/-- `self.framework_mappings['late_submission']`. -/
def fm_late_submission : FrameworkViolation :=
  { lean_waste := "transportation"
    agile_principle := "deliver_working_software_frequently"
    optimization := "implement_automated_reminders" }

/-- The `self.framework_mappings` dictionary as a lookup table. -/
def framework_mappings (k : String) : Option FrameworkViolation :=
  if k = "supervisor_approval_bottleneck" then some fm_supervisor_approval_bottleneck
  else if k = "director_approval_bottleneck" then some fm_director_approval_bottleneck
  else if k = "excessive_rejections" then some fm_excessive_rejections
  else if k = "excessive_duration" then some fm_excessive_duration
  else if k = "late_submission" then some fm_late_submission
  else none

/-! ## Case features (input record of `label_case_inefficiencies`) -/

/-- A per-case feature record as produced by `extract_training_features`
(`case_id`, `total_duration_days`, `activity_count`, `unique_activities`,
`has_rejections`, `rejection_count`, `is_international`,
`approval_time_days`; the two raw sequence columns carry no labeling logic). -/
structure CaseFeatures where
  case_id : String
  total_duration_days : ℚ
  activity_count : ℕ
  unique_activities : ℕ
  has_rejections : Bool
  rejection_count : ℕ
  is_international : Bool
  approval_time_days : Option ℚ
deriving DecidableEq

/-- One inefficiency label emitted by `label_case_inefficiencies`: its
`type`, `severity`, `actual_value` and `framework_violation` fields
(the remaining fields of the Python dict are fixed descriptive strings). -/
structure Finding where
  type : String
  severity : String
  actual_value : ℚ
  framework_violation : FrameworkViolation
deriving DecidableEq

/-! ## label_case_inefficiencies, rule by rule (source order) -/

/-- Duration rule of `label_case_inefficiencies` (the
`if is_international: ... else: ...` block): the labels it appends and the
amount it adds to `severity_score`. -/
def durationRule (cf : CaseFeatures) : List Finding × ℕ :=
  if cf.is_international then
    if cf.total_duration_days > international_excessive_duration then
      ([{ type := "excessive_duration_international"
          severity := if cf.total_duration_days > 200 then "high" else "medium"
          actual_value := cf.total_duration_days
          framework_violation := fm_excessive_duration }],
       if cf.total_duration_days > 200 then 3 else 2)
    else ([], 0)
  else
    if cf.total_duration_days > domestic_excessive_duration then
      ([{ type := "excessive_duration_domestic"
          severity := if cf.total_duration_days > 30 then "high" else "medium"
          actual_value := cf.total_duration_days
          framework_violation := fm_excessive_duration }],
       if cf.total_duration_days > 30 then 3 else 2)
    else ([], 0)

/-- Approval-bottleneck rule of `label_case_inefficiencies`.  Python reads
`approval_time = case_features.get('approval_time_days')` and guards with
`if approval_time:` — falsy both for `None` and for `0.0` — before the
threshold comparison. -/
def approvalRule (cf : CaseFeatures) : List Finding × ℕ :=
  match cf.approval_time_days with
  | none => ([], 0)
  | some approval_time =>
    if approval_time = 0 then ([], 0)
    else if approval_time > supervisor_approval_bottleneck_threshold then
      ([{ type := "supervisor_approval_bottleneck"
          severity := if approval_time > 50 then "high" else "medium"
          actual_value := approval_time
          framework_violation := fm_supervisor_approval_bottleneck }], 3)
    else ([], 0)

/-- Rejection rule of `label_case_inefficiencies`. -/
def rejectionRule (cf : CaseFeatures) : List Finding × ℕ :=
  if cf.rejection_count > excessive_rejections_threshold then
    ([{ type := "excessive_rejections"
        severity := if cf.rejection_count > 3 then "high" else "medium"
        actual_value := (cf.rejection_count : ℚ)
        framework_violation := fm_excessive_rejections }], 2)
  else ([], 0)

/-- Activity-complexity rule of `label_case_inefficiencies`
(`if activity_count > 20`, inline framework-violation record). -/
def complexityRule (cf : CaseFeatures) : List Finding × ℕ :=
  if cf.activity_count > 20 then
    ([{ type := "process_complexity"
        severity := "medium"
        actual_value := (cf.activity_count : ℚ)
        framework_violation :=
          { lean_waste := "overprocessing"
            agile_principle := "simplicity"
            optimization := "consolidate_approval_steps" } }], 1)
  else ([], 0)

/-- `_calculate_optimization_potential`: per-finding-type improvement weight
added in the loop body (unlisted types add nothing). -/
def improvement_weight (t : String) : ℚ :=
  if t = "supervisor_approval_bottleneck" then 453/10
  else if t = "excessive_duration_international" then 30
  else if t = "excessive_duration_domestic" then 50
  else if t = "excessive_rejections" then 20
  else if t = "process_complexity" then 15
  else 0

/-- `_calculate_optimization_potential(inefficiencies, case_features)`:
`0` for an empty list, otherwise the summed weights capped at 80
(`min(improvement_potential, 80)`, written out as a comparison). -/
def calculate_optimization_potential (inefficiencies : List Finding) : ℚ :=
  if inefficiencies.isEmpty then 0
  else
    let improvement_potential := (inefficiencies.map (fun i => improvement_weight i.type)).sum
    if improvement_potential ≤ 80 then improvement_potential else 80

/-- The dict returned by `label_case_inefficiencies`. -/
structure LabelResult where
  inefficiencies : List Finding
  severity_score : ℕ
  total_inefficiency_count : ℕ
  optimization_potential : ℚ
deriving DecidableEq

/-- `label_case_inefficiencies(case_features)`: the four rules run in source
order, appending their labels and accumulating `severity_score`. -/
def label_case_inefficiencies (cf : CaseFeatures) : LabelResult :=
  { inefficiencies :=
      (durationRule cf).1 ++ (approvalRule cf).1 ++ (rejectionRule cf).1 ++ (complexityRule cf).1
    severity_score :=
      (durationRule cf).2 + (approvalRule cf).2 + (rejectionRule cf).2 + (complexityRule cf).2
    total_inefficiency_count :=
      ((durationRule cf).1 ++ (approvalRule cf).1 ++ (rejectionRule cf).1
        ++ (complexityRule cf).1).length
    optimization_potential :=
      calculate_optimization_potential
        ((durationRule cf).1 ++ (approvalRule cf).1 ++ (rejectionRule cf).1
          ++ (complexityRule cf).1) }

/-- The `severity_level` bucketing inside `label_dataset`:
`'high' if severity_score >= 5 else 'medium' if severity_score >= 2 else 'low'`. -/
def severity_level (severity_score : ℕ) : String :=
  if severity_score ≥ 5 then "high"
  else if severity_score ≥ 2 then "medium"
  else "low"

/-! ## Recommendation lookup tables -/

/-- `_get_recommendation`: dictionary lookup with default
`'Review and optimize process flow'`. -/
def get_recommendation (t : String) : String :=
  if t = "supervisor_approval_bottleneck" then
    "Increase number of supervisors or implement delegation rules. Consider automated pre-approval for low-value requests."
  else if t = "director_approval_bottleneck" then
    "Implement escalation rules. Director approval should only be required for high-value or high-risk requests."
  else if t = "excessive_rejections" then
    "Implement pre-validation checks and automated compliance screening before submission."
  else if t = "excessive_duration_international" then
    "Streamline international approval process. Consider regional approval authorities."
  else if t = "excessive_duration_domestic" then
    "Implement automated approval for standard domestic travel below threshold amounts."
  else if t = "process_complexity" then
    "Consolidate approval steps. Remove redundant activities and parallel process where possible."
  else if t = "late_submission" then
    "Implement automated reminder system and mobile expense reporting capabilities."
  else "Review and optimize process flow"

/-- `_get_expected_improvement`: dictionary lookup with default
`'10-20% general improvement'`. -/
def get_expected_improvement (t : String) : String :=
  if t = "supervisor_approval_bottleneck" then "30-50% reduction in approval time"
  else if t = "director_approval_bottleneck" then "40-60% reduction in high-level approval time"
  else if t = "excessive_rejections" then "2-14 day reduction in rework cycles"
  else if t = "excessive_duration_international" then "20-30% reduction in total process time"
  else if t = "excessive_duration_domestic" then "40-60% reduction in total process time"
  else if t = "process_complexity" then "15-25% reduction in administrative overhead"
  else if t = "late_submission" then "80% reduction in late submissions"
  else "10-20% general improvement"

/-- The closed six-type finding enumeration of the specification's data model
(`InefficiencyFinding.type`). -/
def six_finding_types : List String :=
  ["excessive_duration_domestic", "excessive_duration_international",
   "supervisor_approval_bottleneck", "director_approval_bottleneck",
   "excessive_rejections", "process_complexity"]

/-- The keys actually mapped by the `_get_recommendation` /
`_get_expected_improvement` dictionaries (seven entries). -/
def mapped_recommendation_types : List String :=
  ["supervisor_approval_bottleneck", "director_approval_bottleneck",
   "excessive_rejections", "excessive_duration_international",
   "excessive_duration_domestic", "process_complexity", "late_submission"]

/-- The finding types the labeler can actually emit. -/
def emitted_finding_types : List String :=
  ["excessive_duration_international", "excessive_duration_domestic",
   "supervisor_approval_bottleneck", "excessive_rejections", "process_complexity"]

/-! ## extract_training_features (rejection features) -/

/-- Substring test on character lists: `pat` occurs contiguously in the list. -/
def listHasSub (pat : List Char) : List Char → Bool
  | [] => pat.isEmpty
  | c :: rest => pat.isPrefixOf (c :: rest) || listHasSub pat rest

/-- Python's `pat in s` substring containment on strings. -/
def strContains (s pat : String) : Bool := listHasSub pat.toList s.toList

/-- The per-activity test of `extract_training_features`:
`'REJECT' in str(act)` — a case-sensitive containment of `'REJECT'`. -/
def isRejectActivity (act : String) : Bool := strContains act "REJECT"

/-- `features['has_rejections'] = any('REJECT' in str(act) for act in ...)`. -/
def has_rejections (activities : List String) : Bool :=
  activities.any isRejectActivity

/-- `features['rejection_count'] = sum(1 for act in ... if 'REJECT' in str(act))`. -/
def rejection_count (activities : List String) : ℕ :=
  activities.countP isRejectActivity

/-- ASCII lowercasing of one character (what `str.lower()` does on the
ASCII activity names). -/
def lowerChar (c : Char) : Char :=
  if 65 ≤ c.toNat ∧ c.toNat ≤ 90 then Char.ofNat (c.toNat + 32) else c

/-- ASCII-lowercased copy of a string. -/
def strLower (s : String) : String := String.mk (s.toList.map lowerChar)

/-- The spec's matcher for §4.1 rejection features: a case-insensitive
containment of "reject" or "declined" in the activity name.  Stated from the
spec's words, for comparison with `isRejectActivity` (the code's matcher). -/
def specRejectActivity (act : String) : Bool :=
  strContains (strLower act) "reject" || strContains (strLower act) "declined"

/-! ## validate_system.py : SystemValidator -/

/-- `True` exactly when an external query did not raise
(the `try` block completed). -/
def exceptOk {α : Type} : Except String α → Bool
  | Except.ok _ => true
  | Except.error _ => false

/-- Counts read from `agile_framework_knowledge.json` (after `json.loads`),
plus the `'source' in metadata` flag used by research compliance. -/
structure AgileDoc where
  core_values_count : ℕ
  twelve_principles_count : ℕ
  detection_rules_count : ℕ
  source_in_metadata : Bool
deriving DecidableEq

/-- Counts read from `lean_framework_knowledge.json`. -/
structure LeanFrameworkDoc where
  seven_wastes_count : ℕ
  five_principles_count : ℕ
  detection_rules_count : ℕ
deriving DecidableEq

/-- Counts read from `operating_model_knowledge.json`. -/
structure OperatingModelDoc where
  mckinsey_elements_count : ℕ
  violations_count : ℕ
  patterns_count : ℕ
deriving DecidableEq

/-- Counts read from `integrated_optimization_rules.json`. -/
structure IntegrationDoc where
  recommendations_count : ℕ
  synergies_count : ℕ
deriving DecidableEq

/-- The `'bpi_challenge_alignment' in benchmark_data.get('research_validation', {})`
flag read from `validation_data/benchmark_examples.json`. -/
structure BenchmarkDoc where
  benchmarks_implemented : Bool
deriving DecidableEq

/-- Outcomes of the external AWS queries the validator issues.  Each field is
one boto3 call; `Except.error` is that call raising (network/permission
failure, missing resource, or unparsable JSON body). -/
structure Env where
  head_bucket : Except String Unit
  table_status : String → Except String String
  list_model_ids : Except String (List String)
  head_object : String → Except String ℕ
  get_agile : Except String AgileDoc
  get_lean_framework : Except String LeanFrameworkDoc
  get_operating_model : Except String OperatingModelDoc
  get_integration : Except String IntegrationDoc
  get_benchmark : Except String BenchmarkDoc

/-- `required_tables` of `validate_infrastructure`. -/
def required_tables : List String :=
  ["workflow-processing-state", "agent-performance-metrics",
   "workflow-optimization-results", "system-configuration"]

/-- The `infrastructure_results` dict of `validate_infrastructure`. -/
structure InfrastructureResults where
  s3_bucket : Bool
  dynamodb_tables : List (String × Bool)
  bedrock_access : Bool
deriving DecidableEq

/-- One `describe_table` check of `validate_infrastructure`: `True` only when
the call succeeds with status `'ACTIVE'`; a raising call is caught and
recorded as `False`. -/
def table_check (env : Env) (t : String) : Bool :=
  match env.table_status t with
  | Except.ok st => st = "ACTIVE"
  | Except.error _ => false

/-- `validate_infrastructure`: `head_bucket`, `describe_table` per required
table, and `list_foundation_models` filtered for a `'claude-3-5-sonnet'`
model id.  Every failed query is caught and recorded as `False`. -/
def validate_infrastructure (env : Env) : InfrastructureResults :=
  { s3_bucket := exceptOk env.head_bucket
    dynamodb_tables := required_tables.map (fun t => (t, table_check env t))
    bedrock_access :=
      match env.list_model_ids with
      | Except.ok ms => ms.any (fun m => strContains m "claude-3-5-sonnet")
      | Except.error _ => false }

/-- `training_files` of `validate_data_completeness`. -/
def training_files : List String :=
  ["training_data/input_agent_training.jsonl",
   "training_data/analysis_agent_training.jsonl",
   "training_data/optimization_agent_training.jsonl",
   "training_data/output_agent_training.jsonl",
   "training_data/combined_training_dataset.jsonl"]

/-- `framework_files` of `validate_data_completeness`. -/
def framework_files : List String :=
  ["framework_knowledge/agile_framework_knowledge.json",
   "framework_knowledge/lean_framework_knowledge.json",
   "framework_knowledge/operating_model_knowledge.json",
   "framework_knowledge/integrated_optimization_rules.json",
   "framework_knowledge/system_prompts.json"]

/-- `validation_files` of `validate_data_completeness`. -/
def validation_files : List String :=
  ["validation_data/validation_cases.json",
   "validation_data/benchmark_examples.json",
   "validation_data/university_test_data.json"]

/-- All thirteen checked data files, in source order. -/
def all_data_files : List String :=
  training_files ++ framework_files ++ validation_files

/-- Whether one `head_object` existence query succeeded
(`{'exists': True, ...}` versus `{'exists': False, 'error': ...}`). -/
def file_exists (env : Env) (k : String) : Bool := exceptOk (env.head_object k)

/-- The per-file `exists` records of `validate_data_completeness`. -/
def data_file_records (env : Env) : List (String × Bool) :=
  all_data_files.map (fun k => (k, file_exists env k))

/-- `data_results['data_quality_score'] = (existing_files / total_files) * 100`. -/
def data_quality_score (env : Env) : ℚ :=
  ((all_data_files.countP (file_exists env) : ℚ) / (all_data_files.length : ℚ)) * 100

/-- `validate_framework_knowledge`: the four `get_object` + `json.loads`
reads happen inside one `try`; any failure leaves
`knowledge_completeness_score` at 0.  Otherwise the score is the fraction of
the six completeness criteria met, times 100. -/
def knowledge_completeness_score (env : Env) : ℚ :=
  match env.get_agile, env.get_lean_framework, env.get_operating_model, env.get_integration with
  | Except.ok ag, Except.ok lf, Except.ok om, Except.ok ig =>
    let completeness_criteria : List Bool :=
      [ag.core_values_count == 4,
       ag.twelve_principles_count == 12,
       lf.seven_wastes_count == 7,
       lf.five_principles_count == 5,
       om.mckinsey_elements_count == 5,
       decide (5 ≤ ig.recommendations_count)]
    ((completeness_criteria.countP id : ℚ) / (completeness_criteria.length : ℚ)) * 100
  | _, _, _, _ => 0

/-- `validate_research_compliance`: reads `benchmark_examples.json` and the
agile knowledge file inside one `try`; any failure leaves `compliance_score`
at 0.  Otherwise the four compliance criteria are the benchmark flag, the
agile citation flag, and two constant `True`s. -/
def compliance_score (env : Env) : ℚ :=
  match env.get_benchmark, env.get_agile with
  | Except.ok bm, Except.ok ag =>
    let compliance_criteria : List Bool :=
      [bm.benchmarks_implemented, ag.source_in_metadata, true, true]
    ((compliance_criteria.countP id : ℚ) / (compliance_criteria.length : ℚ)) * 100
  | _, _ => 0

/-- The infrastructure category score of `calculate_overall_score`:
25 for the bucket, `(tables_active / 4) * 50`, 25 for Bedrock access. -/
def infrastructure_score (ir : InfrastructureResults) : ℚ :=
  (if ir.s3_bucket then 25 else 0)
  + ((ir.dynamodb_tables.countP (fun p => p.2) : ℚ) / 4) * 50
  + (if ir.bedrock_access then 25 else 0)

/-- `calculate_overall_score`: the fixed category weights
(infrastructure 0.25, data quality 0.20, framework knowledge 0.25,
research compliance 0.30). -/
def calculate_overall_score (infra dataq framework research : ℚ) : ℚ :=
  infra * (25/100) + dataq * (20/100) + framework * (25/100) + research * (30/100)

/-- The validation results assembled by `run_full_validation` (the parts
`calculate_overall_score` and the report read). -/
structure ValidationResults where
  infrastructure : InfrastructureResults
  data_files : List (String × Bool)
  dataq_score : ℚ
  framework_score : ℚ
  research_score : ℚ
  overall_score : ℚ
deriving DecidableEq

/-- `run_full_validation`: run every category validation in order and compute
the weighted overall score.  Total: every external-query failure is handled
inside the category validations, so no single failed check aborts the run. -/
def run_full_validation (env : Env) : ValidationResults :=
  let infra := validate_infrastructure env
  let dscore := data_quality_score env
  let fscore := knowledge_completeness_score env
  let rscore := compliance_score env
  { infrastructure := infra
    data_files := data_file_records env
    dataq_score := dscore
    framework_score := fscore
    research_score := rscore
    overall_score := calculate_overall_score (infrastructure_score infra) dscore fscore rscore }

/-- The exit-status tiers of `main`:
`sys.exit(0)` if the overall score is at least 80, `sys.exit(1)` if at least
60, else `sys.exit(2)`. -/
def exit_code (overall_score : ℚ) : ℕ :=
  if overall_score ≥ 80 then 0
  else if overall_score ≥ 60 then 1
  else 2

/-! ## Concrete inputs used by the witnesses and scenario checks -/

/-- The international scenario of spec §8.6. -/
def cf_international : CaseFeatures :=
  { case_id := "intl", total_duration_days := 220, activity_count := 25,
    unique_activities := 10, has_rejections := true, rejection_count := 4,
    is_international := true, approval_time_days := some 60 }

/-- The domestic scenario of spec §8.5. -/
def cf_domestic : CaseFeatures :=
  { case_id := "dom", total_duration_days := 25, activity_count := 10,
    unique_activities := 5, has_rejections := false, rejection_count := 0,
    is_international := false, approval_time_days := none }

/-- A case violating no threshold. -/
def cf_clean : CaseFeatures :=
  { case_id := "clean", total_duration_days := 5, activity_count := 3,
    unique_activities := 3, has_rejections := false, rejection_count := 0,
    is_international := false, approval_time_days := none }

/-- A domestic case with a 40-day approval latency. -/
def cf_approval40 : CaseFeatures :=
  { case_id := "appr", total_duration_days := 10, activity_count := 5,
    unique_activities := 5, has_rejections := false, rejection_count := 0,
    is_international := false, approval_time_days := some 40 }

/-- The single finding the labeler emits for `cf_domestic`. -/
def finding_domestic_25 : Finding :=
  { type := "excessive_duration_domestic", severity := "medium", actual_value := 25,
    framework_violation := fm_excessive_duration }

/-- An environment where every external query succeeds with the expected
artifacts present. -/
def env_all_ok : Env :=
  { head_bucket := Except.ok ()
    table_status := fun _ => Except.ok "ACTIVE"
    list_model_ids := Except.ok ["anthropic.claude-3-5-sonnet-20240620-v1:0"]
    head_object := fun _ => Except.ok 1024
    get_agile := Except.ok
      { core_values_count := 4, twelve_principles_count := 12,
        detection_rules_count := 6, source_in_metadata := true }
    get_lean_framework := Except.ok
      { seven_wastes_count := 7, five_principles_count := 5, detection_rules_count := 6 }
    get_operating_model := Except.ok
      { mckinsey_elements_count := 5, violations_count := 4, patterns_count := 3 }
    get_integration := Except.ok { recommendations_count := 6, synergies_count := 3 }
    get_benchmark := Except.ok { benchmarks_implemented := true } }

/-! ## Helper lemmas -/

/-- The improvement weight of `_calculate_optimization_potential` is never
negative, whatever the finding type. -/
theorem improvement_weight_nonneg (t : String) : 0 ≤ improvement_weight t := by
  unfold improvement_weight
  split_ifs <;> norm_num

/-- The summed improvement weights of a finding list are nonnegative. -/
theorem sum_weights_nonneg (l : List Finding) :
    0 ≤ (l.map (fun i => improvement_weight i.type)).sum := by
  apply List.sum_nonneg
  intro x hx
  rcases List.mem_map.1 hx with ⟨f, _, rfl⟩
  exact improvement_weight_nonneg f.type

/-- `_calculate_optimization_potential` on a nonempty list is the capped sum. -/
theorem calc_opt_cons (g : Finding) (gs : List Finding) :
    calculate_optimization_potential (g :: gs) =
      (if ((g :: gs).map (fun i => improvement_weight i.type)).sum ≤ 80
       then ((g :: gs).map (fun i => improvement_weight i.type)).sum else 80) := rfl

/-- `_calculate_optimization_potential` is nonnegative. -/
theorem calc_opt_nonneg (l : List Finding) : 0 ≤ calculate_optimization_potential l := by
  rcases l with _ | ⟨g, gs⟩
  · norm_num [calculate_optimization_potential]
  · rw [calc_opt_cons]
    split_ifs with h
    · exact sum_weights_nonneg _
    · norm_num

/-- `_calculate_optimization_potential` never exceeds the 80 cap. -/
theorem calc_opt_le_80 (l : List Finding) : calculate_optimization_potential l ≤ 80 := by
  rcases l with _ | ⟨g, gs⟩
  · norm_num [calculate_optimization_potential]
  · rw [calc_opt_cons]
    split_ifs with h
    · exact h
    · norm_num

/-- Prepending a finding never decreases `_calculate_optimization_potential`. -/
theorem calc_opt_mono (f : Finding) (l : List Finding) :
    calculate_optimization_potential l ≤ calculate_optimization_potential (f :: l) := by
  rcases l with _ | ⟨g, gs⟩
  · have h0 : calculate_optimization_potential [] = 0 := rfl
    rw [h0]
    exact calc_opt_nonneg [f]
  · have hw := improvement_weight_nonneg f.type
    have hsum : ((f :: g :: gs).map (fun i => improvement_weight i.type)).sum =
        improvement_weight f.type + ((g :: gs).map (fun i => improvement_weight i.type)).sum := by
      simp [List.map_cons, List.sum_cons]
    rw [calc_opt_cons, calc_opt_cons f, hsum]
    split_ifs with h1 h2 h2 <;> linarith

/-! ## Claim theorems -/

/-- Claim C1: for every CaseFeatures whose total duration does not exceed the
normal-range ceiling for its international flag (86 days international,
11 days domestic), whose approval time is absent or at most 30 days, with at
most 2 rejections and at most 20 activities, `label_case_inefficiencies`
returns an empty finding list, severity score 0 and optimization potential 0. -/
theorem labeler_clean_case_empty (cf : CaseFeatures)
    (hdur : cf.total_duration_days ≤
      (if cf.is_international then international_normal_duration else domestic_normal_duration))
    (happ : ∀ a : ℚ, cf.approval_time_days = some a → a ≤ 30)
    (hrej : cf.rejection_count ≤ 2)
    (hact : cf.activity_count ≤ 20) :
    (label_case_inefficiencies cf).inefficiencies = [] ∧
    (label_case_inefficiencies cf).severity_score = 0 ∧
    (label_case_inefficiencies cf).optimization_potential = 0 := by
  have hd : durationRule cf = ([], 0) := by
    unfold durationRule
    cases hb : cf.is_international with
    | true =>
      rw [hb] at hdur
      rw [if_pos rfl] at hdur
      rw [if_pos rfl, if_neg]
      rw [international_normal_duration] at hdur
      rw [international_excessive_duration]
      intro hgt
      linarith
    | false =>
      rw [hb] at hdur
      rw [if_neg (by simp)] at hdur
      rw [if_neg (by simp), if_neg]
      rw [domestic_normal_duration] at hdur
      rw [domestic_excessive_duration]
      intro hgt
      linarith
  have ha : approvalRule cf = ([], 0) := by
    cases hao : cf.approval_time_days with
    | none =>
      unfold approvalRule
      rw [hao]
    | some a =>
      have h30 := happ a hao
      have hngt : ¬ a > supervisor_approval_bottleneck_threshold := by
        rw [supervisor_approval_bottleneck_threshold]
        exact not_lt.mpr h30
      unfold approvalRule
      rw [hao]
      dsimp only
      split_ifs <;> rfl
  have hr : rejectionRule cf = ([], 0) := by
    unfold rejectionRule
    rw [if_neg]
    rw [excessive_rejections_threshold]
    omega
  have hc : complexityRule cf = ([], 0) := by
    unfold complexityRule
    rw [if_neg]
    omega
  have hlab : label_case_inefficiencies cf =
      { inefficiencies := [], severity_score := 0, total_inefficiency_count := 0,
        optimization_potential := calculate_optimization_potential [] } := by
    unfold label_case_inefficiencies
    rw [hd, ha, hr, hc]
    rfl
  rw [hlab]
  refine ⟨rfl, rfl, rfl⟩

/-- Witness for C1 at a concrete clean case. -/
theorem labeler_clean_case_empty_witness :
    (cf_clean.total_duration_days ≤
      (if cf_clean.is_international then international_normal_duration else domestic_normal_duration)) ∧
    (cf_clean.rejection_count ≤ 2) ∧ (cf_clean.activity_count ≤ 20) ∧
    ((label_case_inefficiencies cf_clean).inefficiencies = [] ∧
     (label_case_inefficiencies cf_clean).severity_score = 0 ∧
     (label_case_inefficiencies cf_clean).optimization_potential = 0) :=
  ⟨by decide, by decide, by decide,
   labeler_clean_case_empty cf_clean (by decide)
     (by intro a h; simp [cf_clean] at h) (by decide) (by decide)⟩

/-- Claim C2: `_calculate_optimization_potential` is always in `[0, 80]` and
is monotonically non-decreasing when a finding is added to the list. -/
theorem optimization_potential_bounds_and_mono (l : List Finding) (f : Finding) :
    0 ≤ calculate_optimization_potential l ∧
    calculate_optimization_potential l ≤ 80 ∧
    calculate_optimization_potential l ≤ calculate_optimization_potential (f :: l) :=
  ⟨calc_opt_nonneg l, calc_opt_le_80 l, calc_opt_mono f l⟩

/-- Claim C3: the `severity_level` bucket of `label_dataset` is "high" iff
the severity score is at least 5, "medium" iff it is in `[2, 5)`, and "low"
iff it is below 2 (for every natural severity score). -/
theorem severity_level_buckets (s : ℕ) :
    (severity_level s = "high" ↔ 5 ≤ s) ∧
    (severity_level s = "medium" ↔ 2 ≤ s ∧ s < 5) ∧
    (severity_level s = "low" ↔ s < 2) := by
  unfold severity_level
  split_ifs with h1 h2 <;> simp <;> omega

/-- The improvement weight of the supervisor-bottleneck type. -/
theorem iw_supervisor : improvement_weight "supervisor_approval_bottleneck" = 453/10 := rfl

/-- The improvement weight of the international-duration type. -/
theorem iw_international : improvement_weight "excessive_duration_international" = 30 := rfl

/-- The improvement weight of the domestic-duration type. -/
theorem iw_domestic : improvement_weight "excessive_duration_domestic" = 50 := rfl

/-- The improvement weight of the excessive-rejections type. -/
theorem iw_rejections : improvement_weight "excessive_rejections" = 20 := rfl

/-- The improvement weight of the process-complexity type. -/
theorem iw_complexity : improvement_weight "process_complexity" = 15 := rfl

/-- Claim C4: on the concrete international scenario (220 days duration,
60 days approval, 4 rejections, 25 activities) the labeler emits exactly the
four findings excessive_duration_international (high),
supervisor_approval_bottleneck (high), excessive_rejections (high) and
process_complexity (medium), with severity score 9, severity level "high",
and optimization potential capped at 80 (the uncapped sum 30+45.3+20+15
exceeds 80). -/
theorem labeler_international_scenario :
    (label_case_inefficiencies cf_international).inefficiencies.map
        (fun f => (f.type, f.severity)) =
      [("excessive_duration_international", "high"),
       ("supervisor_approval_bottleneck", "high"),
       ("excessive_rejections", "high"),
       ("process_complexity", "medium")] ∧
    (label_case_inefficiencies cf_international).severity_score = 9 ∧
    severity_level (label_case_inefficiencies cf_international).severity_score = "high" ∧
    (30 : ℚ) + 453/10 + 20 + 15 > 80 ∧
    (label_case_inefficiencies cf_international).optimization_potential = 80 := by
  have hlist : (label_case_inefficiencies cf_international).inefficiencies =
      [{ type := "excessive_duration_international", severity := "high", actual_value := 220,
         framework_violation := fm_excessive_duration },
       { type := "supervisor_approval_bottleneck", severity := "high", actual_value := 60,
         framework_violation := fm_supervisor_approval_bottleneck },
       { type := "excessive_rejections", severity := "high", actual_value := 4,
         framework_violation := fm_excessive_rejections },
       { type := "process_complexity", severity := "medium", actual_value := 25,
         framework_violation := { lean_waste := "overprocessing", agile_principle := "simplicity",
                                  optimization := "consolidate_approval_steps" } }] := by decide
  refine ⟨by decide, by decide, by decide, by norm_num, ?_⟩
  have h2 : (label_case_inefficiencies cf_international).optimization_potential
      = calculate_optimization_potential
          (label_case_inefficiencies cf_international).inefficiencies := rfl
  rw [h2, hlist]
  simp only [calc_opt_cons, List.map_cons, List.map_nil, List.sum_cons, List.sum_nil,
    iw_supervisor, iw_international, iw_rejections, iw_complexity]
  norm_num

/-- Claim C5 counterexample: the activity name "Declined" matches the spec's
case-insensitive reject/declined matcher, but `extract_training_features`
(`'REJECT' in str(act)`) reports no rejection for it. -/
theorem rejection_matcher_counterexample :
    specRejectActivity "Declined" = true ∧
    has_rejections ["Declined"] = false ∧
    rejection_count ["Declined"] = 0 := by decide

/-- Claim C5 as amended: `has_rejections` is true exactly when some activity
name contains the case-sensitive substring "REJECT", `rejection_count` is the
number of activity names containing it, and the two are consistent
(`has_rejections` is true iff `rejection_count` is positive). -/
theorem rejection_features_reject_substring (activities : List String) :
    (has_rejections activities = true ↔
      ∃ a ∈ activities, isRejectActivity a = true) ∧
    rejection_count activities = (activities.filter isRejectActivity).length ∧
    (has_rejections activities = true ↔ 0 < rejection_count activities) := by
  refine ⟨?_, ?_, ?_⟩
  · simp [has_rejections, List.any_eq_true]
  · simp [rejection_count, List.countP_eq_length_filter]
  · rw [has_rejections, rejection_count, List.any_eq_true, List.countP_pos_iff]

/-- Claim C6 counterexample: "late_submission" is outside the six-type
enumeration, yet `_get_recommendation` and `_get_expected_improvement` have a
dedicated entry for it and do not return the default pair. -/
theorem recommendation_late_submission_counterexample :
    "late_submission" ∉ six_finding_types ∧
    get_recommendation "late_submission" ≠ "Review and optimize process flow" ∧
    get_expected_improvement "late_submission" ≠ "10-20% general improvement" := by decide

/-- Claim C6 as amended: for every type in the six-type enumeration the
lookup returns non-empty recommendation and expected-improvement strings, and
for every type outside the seven mapped keys (the six types plus
late_submission) it returns the fixed default pair rather than failing. -/
theorem recommendation_lookup_total (t : String) :
    (t ∈ six_finding_types →
      get_recommendation t ≠ "" ∧ get_expected_improvement t ≠ "") ∧
    (t ∉ mapped_recommendation_types →
      get_recommendation t = "Review and optimize process flow" ∧
      get_expected_improvement t = "10-20% general improvement") := by
  constructor
  · intro ht
    rw [six_finding_types] at ht
    simp only [List.mem_cons, List.not_mem_nil, or_false] at ht
    rcases ht with rfl | rfl | rfl | rfl | rfl | rfl <;> exact ⟨by decide, by decide⟩
  · intro ht
    rw [mapped_recommendation_types] at ht
    simp only [List.mem_cons, List.not_mem_nil, or_false, not_or] at ht
    obtain ⟨h1, h2, h3, h4, h5, h6, h7⟩ := ht
    rw [get_recommendation, get_expected_improvement]
    simp only [h1, h2, h3, h4, h5, h6, h7, if_false]
    exact ⟨trivial, trivial⟩

/-- Witness for C6 as amended: a mapped type and an unmapped type. -/
theorem recommendation_lookup_total_witness :
    ("supervisor_approval_bottleneck" ∈ six_finding_types ∧
      get_recommendation "supervisor_approval_bottleneck" ≠ "" ∧
      get_expected_improvement "supervisor_approval_bottleneck" ≠ "") ∧
    ("budget_variance" ∉ mapped_recommendation_types ∧
      get_recommendation "budget_variance" = "Review and optimize process flow" ∧
      get_expected_improvement "budget_variance" = "10-20% general improvement") :=
  ⟨⟨by decide, (recommendation_lookup_total "supervisor_approval_bottleneck").1 (by decide)⟩,
   ⟨by decide, (recommendation_lookup_total "budget_variance").2 (by decide)⟩⟩

/-- The duration rule never emits a supervisor-approval-bottleneck finding. -/
theorem durationRule_no_sab (cf : CaseFeatures) :
    (durationRule cf).1.filter (fun f => f.type == "supervisor_approval_bottleneck") = [] := by
  unfold durationRule
  split_ifs <;> rfl

/-- The rejection rule never emits a supervisor-approval-bottleneck finding. -/
theorem rejectionRule_no_sab (cf : CaseFeatures) :
    (rejectionRule cf).1.filter (fun f => f.type == "supervisor_approval_bottleneck") = [] := by
  unfold rejectionRule
  split_ifs <;> rfl

/-- The complexity rule never emits a supervisor-approval-bottleneck finding. -/
theorem complexityRule_no_sab (cf : CaseFeatures) :
    (complexityRule cf).1.filter (fun f => f.type == "supervisor_approval_bottleneck") = [] := by
  unfold complexityRule
  split_ifs <;> rfl

/-- The duration rule does not read `approval_time_days`. -/
theorem durationRule_ignores_approval (cf : CaseFeatures) :
    durationRule { cf with approval_time_days := none } = durationRule cf := rfl

/-- The rejection rule does not read `approval_time_days`. -/
theorem rejectionRule_ignores_approval (cf : CaseFeatures) :
    rejectionRule { cf with approval_time_days := none } = rejectionRule cf := rfl

/-- The complexity rule does not read `approval_time_days`. -/
theorem complexityRule_ignores_approval (cf : CaseFeatures) :
    complexityRule { cf with approval_time_days := none } = complexityRule cf := rfl

/-- The supervisor-approval findings of a labeled case are exactly the
approval rule's output. -/
theorem label_filter_sab (cf : CaseFeatures) (x : List Finding × ℕ)
    (hx : approvalRule cf = x) :
    (label_case_inefficiencies cf).inefficiencies.filter
        (fun f => f.type == "supervisor_approval_bottleneck") =
      x.1.filter (fun f => f.type == "supervisor_approval_bottleneck") := by
  show ((durationRule cf).1 ++ (approvalRule cf).1 ++ (rejectionRule cf).1
      ++ (complexityRule cf).1).filter (fun f => f.type == "supervisor_approval_bottleneck") = _
  rw [List.filter_append, List.filter_append, List.filter_append,
      durationRule_no_sab, rejectionRule_no_sab, complexityRule_no_sab, hx]
  simp

/-- Claim C7: whenever `approval_time_days` is present and exceeds 30 days,
the labeler emits exactly one supervisor_approval_bottleneck finding, of
severity "high" iff the approval time exceeds 50 days, and the finding adds
exactly 3 to the severity score; with the approval time absent or at most 30
days, no such finding is emitted and the score is unchanged. -/
theorem approval_bottleneck_rule (cf : CaseFeatures) :
    (∀ a : ℚ, cf.approval_time_days = some a → 30 < a →
      ((label_case_inefficiencies cf).inefficiencies.filter
          (fun f => f.type == "supervisor_approval_bottleneck") =
        [{ type := "supervisor_approval_bottleneck"
           severity := if a > 50 then "high" else "medium"
           actual_value := a
           framework_violation := fm_supervisor_approval_bottleneck }] ∧
      (label_case_inefficiencies cf).severity_score =
        (label_case_inefficiencies
          { cf with approval_time_days := none }).severity_score + 3)) ∧
    ((∀ a : ℚ, cf.approval_time_days = some a → a ≤ 30) →
      ((label_case_inefficiencies cf).inefficiencies.filter
          (fun f => f.type == "supervisor_approval_bottleneck") = [] ∧
      (label_case_inefficiencies cf).severity_score =
        (label_case_inefficiencies
          { cf with approval_time_days := none }).severity_score)) := by
  constructor
  · intro a hao h30
    have hne : ¬ a = 0 := by
      intro h
      rw [h] at h30
      norm_num at h30
    have hx : approvalRule cf =
        ([{ type := "supervisor_approval_bottleneck"
            severity := if a > 50 then "high" else "medium"
            actual_value := a
            framework_violation := fm_supervisor_approval_bottleneck }], 3) := by
      unfold approvalRule
      rw [hao]
      dsimp only
      rw [if_neg hne, if_pos]
      rw [supervisor_approval_bottleneck_threshold]
      exact h30
    refine ⟨by rw [label_filter_sab cf _ hx]; rfl, ?_⟩
    show (durationRule cf).2 + (approvalRule cf).2 + (rejectionRule cf).2
        + (complexityRule cf).2 = _ + 3
    rw [hx]
    show (durationRule cf).2 + 3 + (rejectionRule cf).2 + (complexityRule cf).2 =
      (durationRule { cf with approval_time_days := none }).2
        + (approvalRule { cf with approval_time_days := none }).2
        + (rejectionRule { cf with approval_time_days := none }).2
        + (complexityRule { cf with approval_time_days := none }).2 + 3
    rw [durationRule_ignores_approval, rejectionRule_ignores_approval,
        complexityRule_ignores_approval]
    show _ = (durationRule cf).2 + 0 + (rejectionRule cf).2 + (complexityRule cf).2 + 3
    omega
  · intro happ
    have hx : approvalRule cf = ([], 0) := by
      cases hao : cf.approval_time_days with
      | none =>
        unfold approvalRule
        rw [hao]
      | some a =>
        have h30 := happ a hao
        have hngt : ¬ a > supervisor_approval_bottleneck_threshold := by
          rw [supervisor_approval_bottleneck_threshold]
          exact not_lt.mpr h30
        unfold approvalRule
        rw [hao]
        dsimp only
        split_ifs <;> rfl
    refine ⟨by rw [label_filter_sab cf _ hx]; rfl, ?_⟩
    show (durationRule cf).2 + (approvalRule cf).2 + (rejectionRule cf).2
        + (complexityRule cf).2 =
      (durationRule { cf with approval_time_days := none }).2
        + (approvalRule { cf with approval_time_days := none }).2
        + (rejectionRule { cf with approval_time_days := none }).2
        + (complexityRule { cf with approval_time_days := none }).2
    rw [hx, durationRule_ignores_approval, rejectionRule_ignores_approval,
        complexityRule_ignores_approval]
    show (durationRule cf).2 + 0 + (rejectionRule cf).2 + (complexityRule cf).2 =
      (durationRule cf).2 + 0 + (rejectionRule cf).2 + (complexityRule cf).2
    rfl

/-- Witness for C7 at a 40-day approval case (finding emitted, medium) and a
clean case (no finding). -/
theorem approval_bottleneck_rule_witness :
    (cf_approval40.approval_time_days = some 40 ∧ (30 : ℚ) < 40 ∧
      ((label_case_inefficiencies cf_approval40).inefficiencies.filter
          (fun f => f.type == "supervisor_approval_bottleneck") =
        [{ type := "supervisor_approval_bottleneck"
           severity := if (40 : ℚ) > 50 then "high" else "medium"
           actual_value := 40
           framework_violation := fm_supervisor_approval_bottleneck }] ∧
      (label_case_inefficiencies cf_approval40).severity_score =
        (label_case_inefficiencies
          { cf_approval40 with approval_time_days := none }).severity_score + 3)) ∧
    ((label_case_inefficiencies cf_clean).inefficiencies.filter
        (fun f => f.type == "supervisor_approval_bottleneck") = [] ∧
      (label_case_inefficiencies cf_clean).severity_score =
        (label_case_inefficiencies
          { cf_clean with approval_time_days := none }).severity_score) :=
  ⟨⟨rfl, by decide, (approval_bottleneck_rule cf_approval40).1 40 rfl (by decide)⟩,
   (approval_bottleneck_rule cf_clean).2 (by intro a h; simp [cf_clean] at h)⟩

/-- Every duration-rule finding is one of the two duration types. -/
theorem durationRule_types (cf : CaseFeatures) (f : Finding)
    (hf : f ∈ (durationRule cf).1) :
    f.type = "excessive_duration_international" ∨
    f.type = "excessive_duration_domestic" := by
  unfold durationRule at hf
  split_ifs at hf <;> simp only [List.mem_singleton, List.not_mem_nil] at hf <;>
    first
      | (subst hf; exact Or.inl rfl)
      | (subst hf; exact Or.inr rfl)

/-- Every approval-rule finding has the supervisor-bottleneck type. -/
theorem approvalRule_types (cf : CaseFeatures) (f : Finding)
    (hf : f ∈ (approvalRule cf).1) :
    f.type = "supervisor_approval_bottleneck" := by
  unfold approvalRule at hf
  cases hao : cf.approval_time_days with
  | none =>
    rw [hao] at hf
    simp at hf
  | some a =>
    rw [hao] at hf
    dsimp only at hf
    split_ifs at hf <;> simp only [List.mem_singleton, List.not_mem_nil] at hf <;>
      (subst hf; rfl)

/-- Every rejection-rule finding has the excessive-rejections type. -/
theorem rejectionRule_types (cf : CaseFeatures) (f : Finding)
    (hf : f ∈ (rejectionRule cf).1) :
    f.type = "excessive_rejections" := by
  unfold rejectionRule at hf
  split_ifs at hf <;> simp only [List.mem_singleton, List.not_mem_nil] at hf <;>
    (subst hf; rfl)

/-- Every complexity-rule finding has the process-complexity type. -/
theorem complexityRule_types (cf : CaseFeatures) (f : Finding)
    (hf : f ∈ (complexityRule cf).1) :
    f.type = "process_complexity" := by
  unfold complexityRule at hf
  split_ifs at hf <;> simp only [List.mem_singleton, List.not_mem_nil] at hf
  subst hf
  rfl

/-- Claim C10: every finding the labeler emits has one of the five emitted
types; director_approval_bottleneck and late_submission are never emitted,
although the threshold table, the framework mappings and both recommendation
tables all carry entries for them. -/
theorem labeler_emitted_types_closed (cf : CaseFeatures) (f : Finding)
    (hf : f ∈ (label_case_inefficiencies cf).inefficiencies) :
    f.type ∈ emitted_finding_types ∧
    f.type ≠ "director_approval_bottleneck" ∧
    f.type ≠ "late_submission" ∧
    (thresholds "director_approval_bottleneck").isSome = true ∧
    (thresholds "late_submission_days").isSome = true ∧
    (framework_mappings "director_approval_bottleneck").isSome = true ∧
    (framework_mappings "late_submission").isSome = true ∧
    get_recommendation "director_approval_bottleneck" ≠ "Review and optimize process flow" ∧
    get_recommendation "late_submission" ≠ "Review and optimize process flow" ∧
    get_expected_improvement "director_approval_bottleneck" ≠ "10-20% general improvement" ∧
    get_expected_improvement "late_submission" ≠ "10-20% general improvement" := by
  have hmem : f ∈ (durationRule cf).1 ∨ f ∈ (approvalRule cf).1 ∨
      f ∈ (rejectionRule cf).1 ∨ f ∈ (complexityRule cf).1 := by
    have h0 : (label_case_inefficiencies cf).inefficiencies =
        (durationRule cf).1 ++ (approvalRule cf).1 ++ (rejectionRule cf).1
          ++ (complexityRule cf).1 := rfl
    rw [h0] at hf
    simp only [List.mem_append] at hf
    tauto
  have htype : f.type = "excessive_duration_international" ∨
      f.type = "excessive_duration_domestic" ∨
      f.type = "supervisor_approval_bottleneck" ∨
      f.type = "excessive_rejections" ∨
      f.type = "process_complexity" := by
    rcases hmem with h | h | h | h
    · rcases durationRule_types cf f h with h1 | h1
      · exact Or.inl h1
      · exact Or.inr (Or.inl h1)
    · exact Or.inr (Or.inr (Or.inl (approvalRule_types cf f h)))
    · exact Or.inr (Or.inr (Or.inr (Or.inl (rejectionRule_types cf f h))))
    · exact Or.inr (Or.inr (Or.inr (Or.inr (complexityRule_types cf f h))))
  rcases htype with h | h | h | h | h <;> rw [h] <;> decide

/-- Witness for C10 at the domestic scenario's single finding. -/
theorem labeler_emitted_types_closed_witness :
    finding_domestic_25 ∈ (label_case_inefficiencies cf_domestic).inefficiencies ∧
    finding_domestic_25.type ∈ emitted_finding_types :=
  ⟨by decide,
   (labeler_emitted_types_closed cf_domestic finding_domestic_25 (by decide)).1⟩

/-- A fraction of satisfied checks, times 100, lies in `[0, 100]`. -/
theorem count_ratio_range {α : Type} (p : α → Bool) (L : List α) (hpos : 0 < L.length) :
    0 ≤ ((L.countP p : ℚ) / (L.length : ℚ)) * 100 ∧
    ((L.countP p : ℚ) / (L.length : ℚ)) * 100 ≤ 100 := by
  have hc : (L.countP p : ℚ) ≤ (L.length : ℚ) := by
    exact_mod_cast List.countP_le_length (p := p) (l := L)
  have h0 : (0 : ℚ) ≤ (L.countP p : ℚ) := Nat.cast_nonneg _
  have hl : (0 : ℚ) < (L.length : ℚ) := by exact_mod_cast hpos
  constructor
  · exact mul_nonneg (div_nonneg h0 (le_of_lt hl)) (by norm_num)
  · have hle1 : (L.countP p : ℚ) / (L.length : ℚ) ≤ 1 := (div_le_one hl).mpr hc
    linarith

/-- `validate_infrastructure` always records exactly four tables. -/
theorem validate_infrastructure_tables_length (env : Env) :
    (validate_infrastructure env).dynamodb_tables.length = 4 := by
  simp [validate_infrastructure, required_tables]

/-- The infrastructure category score lies in `[0, 100]` whenever the table
record has its four entries. -/
theorem infrastructure_score_range (ir : InfrastructureResults)
    (hlen : ir.dynamodb_tables.length = 4) :
    0 ≤ infrastructure_score ir ∧ infrastructure_score ir ≤ 100 := by
  have hcount : ir.dynamodb_tables.countP (fun p => p.2) ≤ 4 := by
    have := List.countP_le_length (p := fun p => p.2) (l := ir.dynamodb_tables)
    omega
  have h4 : ((ir.dynamodb_tables.countP (fun p => p.2) : ℚ)) ≤ 4 := by exact_mod_cast hcount
  have h0 : (0 : ℚ) ≤ (ir.dynamodb_tables.countP (fun p => p.2) : ℚ) := Nat.cast_nonneg _
  unfold infrastructure_score
  split_ifs <;> constructor <;> linarith

/-- The data-quality category score lies in `[0, 100]`. -/
theorem data_quality_score_range (env : Env) :
    0 ≤ data_quality_score env ∧ data_quality_score env ≤ 100 := by
  unfold data_quality_score
  exact count_ratio_range (file_exists env) all_data_files (by decide)

/-- The framework-knowledge category score lies in `[0, 100]`. -/
theorem knowledge_score_range (env : Env) :
    0 ≤ knowledge_completeness_score env ∧ knowledge_completeness_score env ≤ 100 := by
  unfold knowledge_completeness_score
  rcases env.get_agile with e | ag <;> rcases env.get_lean_framework with e2 | lf <;>
    rcases env.get_operating_model with e3 | om <;> rcases env.get_integration with e4 | ig <;>
    first
      | exact count_ratio_range id _ (by norm_num)
      | (constructor <;> norm_num)

/-- The research-compliance category score lies in `[0, 100]`. -/
theorem compliance_score_range (env : Env) :
    0 ≤ compliance_score env ∧ compliance_score env ≤ 100 := by
  unfold compliance_score
  rcases env.get_benchmark with e | bm <;> rcases env.get_agile with e2 | ag <;>
    first
      | exact count_ratio_range id _ (by norm_num)
      | (constructor <;> norm_num)

/-- The exit tiers of `main` as an iff characterization. -/
theorem exit_code_tiers (o : ℚ) :
    (exit_code o = 0 ↔ 80 ≤ o) ∧
    (exit_code o = 1 ↔ 60 ≤ o ∧ o < 80) ∧
    (exit_code o = 2 ↔ o < 60) := by
  unfold exit_code
  split_ifs with h1 h2
  · refine ⟨⟨fun _ => h1, fun _ => rfl⟩,
      ⟨fun h => by norm_num at h, fun h => by exfalso; linarith [h.2]⟩,
      ⟨fun h => by norm_num at h, fun h => by exfalso; linarith⟩⟩
  · refine ⟨⟨fun h => by norm_num at h, fun h => by exfalso; exact h1 h⟩,
      ⟨fun _ => ⟨h2, not_le.mp h1⟩, fun _ => rfl⟩,
      ⟨fun h => by norm_num at h, fun h => by exfalso; linarith⟩⟩
  · refine ⟨⟨fun h => by norm_num at h, fun h => by exfalso; exact h1 h⟩,
      ⟨fun h => by norm_num at h, fun h => by exfalso; exact h2 h.1⟩,
      ⟨fun _ => not_le.mp h2, fun _ => rfl⟩⟩

/-- Claim C8: the overall validation score is the weighted sum of the four
category scores with weights 25/20/25/30 percent, each category score lies in
`[0, 100]`, hence the overall score lies in `[0, 100]`, and the process exit
status is 0 iff the overall score is at least 80, 1 iff it is in `[60, 80)`,
and 2 iff it is below 60. -/
theorem validator_overall_score_and_exit (env : Env) :
    (run_full_validation env).overall_score =
      infrastructure_score (validate_infrastructure env) * (25/100)
        + (run_full_validation env).dataq_score * (20/100)
        + (run_full_validation env).framework_score * (25/100)
        + (run_full_validation env).research_score * (30/100) ∧
    (0 ≤ infrastructure_score (validate_infrastructure env) ∧
      infrastructure_score (validate_infrastructure env) ≤ 100) ∧
    (0 ≤ (run_full_validation env).dataq_score ∧
      (run_full_validation env).dataq_score ≤ 100) ∧
    (0 ≤ (run_full_validation env).framework_score ∧
      (run_full_validation env).framework_score ≤ 100) ∧
    (0 ≤ (run_full_validation env).research_score ∧
      (run_full_validation env).research_score ≤ 100) ∧
    (0 ≤ (run_full_validation env).overall_score ∧
      (run_full_validation env).overall_score ≤ 100) ∧
    (exit_code (run_full_validation env).overall_score = 0 ↔
      80 ≤ (run_full_validation env).overall_score) ∧
    (exit_code (run_full_validation env).overall_score = 1 ↔
      60 ≤ (run_full_validation env).overall_score ∧
        (run_full_validation env).overall_score < 80) ∧
    (exit_code (run_full_validation env).overall_score = 2 ↔
      (run_full_validation env).overall_score < 60) := by
  have hi := infrastructure_score_range (validate_infrastructure env)
    (validate_infrastructure_tables_length env)
  have hdq := data_quality_score_range env
  have hfk := knowledge_score_range env
  have hrc := compliance_score_range env
  refine ⟨rfl, hi, hdq, hfk, hrc, ⟨?_, ?_⟩,
    (exit_code_tiers _).1, (exit_code_tiers _).2.1, (exit_code_tiers _).2.2⟩
  · show 0 ≤ calculate_overall_score (infrastructure_score (validate_infrastructure env))
      (data_quality_score env) (knowledge_completeness_score env) (compliance_score env)
    unfold calculate_overall_score
    have := hi.1
    have := hdq.1
    have := hfk.1
    have := hrc.1
    positivity
  · show calculate_overall_score (infrastructure_score (validate_infrastructure env))
      (data_quality_score env) (knowledge_completeness_score env) (compliance_score env) ≤ 100
    unfold calculate_overall_score
    nlinarith [hi.2, hdq.2, hfk.2, hrc.2, hi.1, hdq.1, hfk.1, hrc.1]

/-- Looking a key up in the association list built by mapping a record
function over the key list returns that key's record. -/
theorem lookup_map_self {β : Type} (g : String → β) (k : String) (l : List String)
    (hk : k ∈ l) :
    (l.map (fun s => (s, g s))).lookup k = some (g k) := by
  induction l with
  | nil => cases hk
  | cons x xs ih =>
    by_cases hx : k = x
    · subst hx
      simp [List.lookup_cons]
    · have hmem : k ∈ xs := by
        rcases List.mem_cons.mp hk with h | h
        · exact absurd h hx
        · exact h
      have hbeq : (k == x) = false := beq_eq_false_iff_ne.mpr hx
      simp only [List.map_cons, List.lookup_cons, hbeq]
      exact ih hmem

/-- Claim C9: a single failed external existence/status query — the bucket
check, one table-status query, the model-access listing, or one storage
object check — is recorded as absent (False) in the validation results,
degrades only its own category's score (the three other category scores are
unchanged), and the validation still runs to completion.  Totality of
`run_full_validation` over every outcome environment is the embedding of
"no single failed check causes the validator to abort or raise". -/
theorem single_failed_check_degrades_one_category (env : Env) (e : String)
    (t k : String) (ht : t ∈ required_tables) (hk : k ∈ all_data_files) :
    ((validate_infrastructure { env with head_bucket := Except.error e }).s3_bucket = false ∧
      (run_full_validation { env with head_bucket := Except.error e }).dataq_score =
        (run_full_validation env).dataq_score ∧
      (run_full_validation { env with head_bucket := Except.error e }).framework_score =
        (run_full_validation env).framework_score ∧
      (run_full_validation { env with head_bucket := Except.error e }).research_score =
        (run_full_validation env).research_score ∧
      infrastructure_score (validate_infrastructure { env with head_bucket := Except.error e }) ≤
        infrastructure_score (validate_infrastructure env)) ∧
    ((validate_infrastructure
        { env with table_status := fun s => if s = t then Except.error e else env.table_status s
        }).dynamodb_tables.lookup t = some false ∧
      (run_full_validation
        { env with table_status := fun s => if s = t then Except.error e else env.table_status s
        }).dataq_score = (run_full_validation env).dataq_score ∧
      (run_full_validation
        { env with table_status := fun s => if s = t then Except.error e else env.table_status s
        }).framework_score = (run_full_validation env).framework_score ∧
      (run_full_validation
        { env with table_status := fun s => if s = t then Except.error e else env.table_status s
        }).research_score = (run_full_validation env).research_score ∧
      infrastructure_score (validate_infrastructure
        { env with table_status := fun s => if s = t then Except.error e else env.table_status s }) ≤
        infrastructure_score (validate_infrastructure env)) ∧
    ((validate_infrastructure { env with list_model_ids := Except.error e }).bedrock_access = false ∧
      (run_full_validation { env with list_model_ids := Except.error e }).dataq_score =
        (run_full_validation env).dataq_score ∧
      (run_full_validation { env with list_model_ids := Except.error e }).framework_score =
        (run_full_validation env).framework_score ∧
      (run_full_validation { env with list_model_ids := Except.error e }).research_score =
        (run_full_validation env).research_score ∧
      infrastructure_score (validate_infrastructure { env with list_model_ids := Except.error e }) ≤
        infrastructure_score (validate_infrastructure env)) ∧
    ((run_full_validation
        { env with head_object := fun s => if s = k then Except.error e else env.head_object s
        }).data_files.lookup k = some false ∧
      (run_full_validation
        { env with head_object := fun s => if s = k then Except.error e else env.head_object s
        }).infrastructure = (run_full_validation env).infrastructure ∧
      (run_full_validation
        { env with head_object := fun s => if s = k then Except.error e else env.head_object s
        }).framework_score = (run_full_validation env).framework_score ∧
      (run_full_validation
        { env with head_object := fun s => if s = k then Except.error e else env.head_object s
        }).research_score = (run_full_validation env).research_score ∧
      (run_full_validation
        { env with head_object := fun s => if s = k then Except.error e else env.head_object s
        }).dataq_score ≤ (run_full_validation env).dataq_score) := by
  refine ⟨⟨rfl, rfl, rfl, rfl, ?_⟩, ⟨?_, rfl, rfl, rfl, ?_⟩, ⟨rfl, rfl, rfl, rfl, ?_⟩,
    ⟨?_, rfl, rfl, rfl, ?_⟩⟩
  · -- bucket failure: infra score monotone
    have h1 : infrastructure_score (validate_infrastructure { env with head_bucket := Except.error e }) =
        0 + (((validate_infrastructure env).dynamodb_tables.countP (fun p => p.2) : ℚ) / 4) * 50
          + (if (validate_infrastructure env).bedrock_access then 25 else 0) := rfl
    rw [h1]
    unfold infrastructure_score
    split_ifs <;> linarith
  · -- table failure: recorded false
    have hl := lookup_map_self
      (table_check { env with table_status := fun s => if s = t then Except.error e else env.table_status s })
      t required_tables ht
    have hfalse : table_check
        { env with table_status := fun s => if s = t then Except.error e else env.table_status s } t
        = false := by
      unfold table_check
      simp
    exact hl.trans (by rw [hfalse])
  · -- table failure: infra score monotone
    set envT := { env with table_status := fun s => if s = t then Except.error e else env.table_status s } with henvT
    have hcle : (validate_infrastructure envT).dynamodb_tables.countP (fun p => p.2) ≤
        (validate_infrastructure env).dynamodb_tables.countP (fun p => p.2) := by
      show (required_tables.map (fun s => (s, table_check envT s))).countP (fun p => p.2) ≤
        (required_tables.map (fun s => (s, table_check env s))).countP (fun p => p.2)
      rw [List.countP_map, List.countP_map]
      apply List.countP_mono_left
      intro x hx hpx
      simp only [Function.comp] at hpx ⊢
      by_cases hxt : x = t
      · exfalso
        rw [henvT] at hpx
        unfold table_check at hpx
        simp [hxt] at hpx
      · rw [henvT] at hpx
        unfold table_check at hpx ⊢
        simp only [hxt, if_false] at hpx
        exact hpx
    have hs3 : (validate_infrastructure envT).s3_bucket = (validate_infrastructure env).s3_bucket := rfl
    have hba : (validate_infrastructure envT).bedrock_access = (validate_infrastructure env).bedrock_access := rfl
    have hq : ((validate_infrastructure envT).dynamodb_tables.countP (fun p => p.2) : ℚ) ≤
        ((validate_infrastructure env).dynamodb_tables.countP (fun p => p.2) : ℚ) := by
      exact_mod_cast hcle
    unfold infrastructure_score
    rw [hs3, hba]
    split_ifs <;> linarith
  · -- model-access failure: infra score monotone
    have h1 : infrastructure_score (validate_infrastructure { env with list_model_ids := Except.error e }) =
        (if (validate_infrastructure env).s3_bucket then 25 else 0)
          + (((validate_infrastructure env).dynamodb_tables.countP (fun p => p.2) : ℚ) / 4) * 50
          + 0 := rfl
    rw [h1]
    unfold infrastructure_score
    split_ifs <;> linarith
  · -- object failure: recorded absent
    have hl := lookup_map_self
      (file_exists { env with head_object := fun s => if s = k then Except.error e else env.head_object s })
      k all_data_files hk
    have hfalse : file_exists
        { env with head_object := fun s => if s = k then Except.error e else env.head_object s } k
        = false := by
      unfold file_exists exceptOk
      simp
    exact hl.trans (by rw [hfalse])
  · -- object failure: data score monotone
    set envK := { env with head_object := fun s => if s = k then Except.error e else env.head_object s } with henvK
    have hcle : all_data_files.countP (file_exists envK) ≤ all_data_files.countP (file_exists env) := by
      apply List.countP_mono_left
      intro x hx hpx
      by_cases hxk : x = k
      · exfalso
        rw [henvK] at hpx
        unfold file_exists exceptOk at hpx
        simp [hxk] at hpx
      · rw [henvK] at hpx
        unfold file_exists exceptOk at hpx ⊢
        simp only [hxk, if_false] at hpx
        exact hpx
    have hq : (all_data_files.countP (file_exists envK) : ℚ) ≤
        (all_data_files.countP (file_exists env) : ℚ) := by exact_mod_cast hcle
    show data_quality_score envK ≤ data_quality_score env
    unfold data_quality_score
    have hlen : (all_data_files.length : ℚ) = 13 := by
      norm_num [all_data_files, training_files, framework_files, validation_files]
    rw [hlen]
    linarith

/-- Witness for C9: failing the bucket check, the system-configuration table
query, and one validation-data object check against the all-ok environment. -/
theorem single_failed_check_witness :
    ("system-configuration" ∈ required_tables) ∧
    ("validation_data/validation_cases.json" ∈ all_data_files) ∧
    (validate_infrastructure { env_all_ok with head_bucket := Except.error "denied" }).s3_bucket
      = false ∧
    (validate_infrastructure
      { env_all_ok with table_status := fun s =>
          if s = "system-configuration" then Except.error "denied" else env_all_ok.table_status s
      }).dynamodb_tables.lookup "system-configuration" = some false ∧
    (run_full_validation
      { env_all_ok with head_object := fun s =>
          if s = "validation_data/validation_cases.json" then Except.error "denied"
          else env_all_ok.head_object s
      }).data_files.lookup "validation_data/validation_cases.json" = some false := by
  have H := single_failed_check_degrades_one_category env_all_ok "denied"
    "system-configuration" "validation_data/validation_cases.json" (by decide) (by decide)
  exact ⟨by decide, by decide, H.1.1, H.2.1.1, H.2.2.2.1⟩
